import Mathlib

/-!
Verification of the ghostCAT mouse-configuration core (libghostcat +
ghostcatd) against its specification.  The definitions below are a shallow
embedding of the C sources in `src/libratbag/`: each `def` mirrors one C
function or data structure, keeping the source's names and control flow.
Machine integers are modelled as `Nat` (the C arithmetic here never
overflows except where noted); C functions that return error codes return
an element of `GError` or an explicit result inductive.
-/

namespace GhostCAT

/-! ### Error codes (`enum ghostcat_error_code`, libghostcat-test.h) -/

/-- `enum ghostcat_error_code`: success = 0, device = -1000,
capability = -1001, value = -1002, system = -1003, implementation = -1004. -/
inductive GError where
  | success
  | device
  | capability
  | value
  | system
  | implementation
deriving DecidableEq, Repr

/-! ### Key codes and modifier masks

Key codes are the Linux `input-event-codes.h` constants used by
libghostcat.c; modifier masks are the `MODIFIER_*` bit masks from the
private header. -/

def KEY_RESERVED : Nat := 0
def KEY_LEFTCTRL : Nat := 29
def KEY_LEFTSHIFT : Nat := 42
def KEY_RIGHTSHIFT : Nat := 54
def KEY_LEFTALT : Nat := 56
def KEY_RIGHTCTRL : Nat := 97
def KEY_RIGHTALT : Nat := 100
def KEY_LEFTMETA : Nat := 125
def KEY_RIGHTMETA : Nat := 126

def MODIFIER_LEFTCTRL : Nat := 1
def MODIFIER_LEFTSHIFT : Nat := 2
def MODIFIER_LEFTALT : Nat := 4
def MODIFIER_LEFTMETA : Nat := 8
def MODIFIER_RIGHTCTRL : Nat := 16
def MODIFIER_RIGHTSHIFT : Nat := 32
def MODIFIER_RIGHTALT : Nat := 64
def MODIFIER_RIGHTMETA : Nat := 128

/-- `UINT_MAX` for the 32-bit `unsigned int` arithmetic of the decoder. -/
def UINT_MAX : Nat := 2 ^ 32 - 1

/-! ### Macros (`struct ghostcat_macro`, libghostcat-private.h) -/

/-- `enum ghostcat_macro_event_type` (libghostcat-test.h):
invalid = -1, none = 0, then key-pressed, key-released, wait. -/
inductive MacroEventType where
  | invalid
  | none
  | keyPressed
  | keyReleased
  | wait
deriving DecidableEq, Repr

/-- `struct ghostcat_macro_event`: a type tag and a union holding either a
key code (`event.key`) or a wait timeout (`event.timeout`); `data` models
the union. -/
structure MacroEvent where
  type : MacroEventType
  data : Nat
deriving DecidableEq, Repr

/-- A zero-initialised array slot (`zalloc`): type `NONE`, data 0. -/
def noneEvent : MacroEvent := ⟨MacroEventType.none, 0⟩

def MAX_MACRO_EVENTS : Nat := 256

/-- The full `events[MAX_MACRO_EVENTS]` array of a freshly `zalloc`-ed
macro after the given prefix of events has been written with
`ghostcat_button_macro_set_event`: the written prefix followed by
zero-initialised (`NONE`) slots. -/
def mkMacroEvents (evs : List MacroEvent) : List MacroEvent :=
  evs ++ List.replicate (MAX_MACRO_EVENTS - evs.length) noneEvent

/-- `struct ghostcat_modifier_mapping`. -/
structure ModifierMapping where
  modifier_mask : Nat
  key : Nat
deriving DecidableEq, Repr

/-- `ghostcat_modifier_mapping[]` (libghostcat.c:1932): the eight canonical
modifiers in table order. -/
def ghostcat_modifier_mapping : List ModifierMapping :=
  [⟨MODIFIER_LEFTCTRL, KEY_LEFTCTRL⟩,
   ⟨MODIFIER_LEFTSHIFT, KEY_LEFTSHIFT⟩,
   ⟨MODIFIER_LEFTALT, KEY_LEFTALT⟩,
   ⟨MODIFIER_LEFTMETA, KEY_LEFTMETA⟩,
   ⟨MODIFIER_RIGHTCTRL, KEY_RIGHTCTRL⟩,
   ⟨MODIFIER_RIGHTSHIFT, KEY_RIGHTSHIFT⟩,
   ⟨MODIFIER_RIGHTALT, KEY_RIGHTALT⟩,
   ⟨MODIFIER_RIGHTMETA, KEY_RIGHTMETA⟩]

/-- Modelled from the spec: `ghostcat_key_is_modifier` lives in the leaf
utility header (`libghostcat-util.h`), which is not part of the provided
sources.  Per §4.1 of the spec it recognises exactly the key codes of the
eight-entry modifier table. -/
def ghostcat_key_is_modifier (k : Nat) : Bool :=
  k == KEY_LEFTCTRL || k == KEY_LEFTSHIFT || k == KEY_LEFTALT ||
  k == KEY_LEFTMETA || k == KEY_RIGHTCTRL || k == KEY_RIGHTSHIFT ||
  k == KEY_RIGHTALT || k == KEY_RIGHTMETA

/-- `ghostcat_button_macro_new_from_keycode` (libghostcat.c:1943), viewed
as the event array it writes into the button's macro: press events for
each set modifier in table order, press and release of `key`, release
events for the set modifiers in table order, rest of the array `NONE`. -/
def ghostcat_button_macro_new_from_keycode (key modifiers : Nat) : List MacroEvent :=
  mkMacroEvents
    ((ghostcat_modifier_mapping.filter
        (fun m => (modifiers &&& m.modifier_mask) != 0)).map
        (fun m => ⟨MacroEventType.keyPressed, m.key⟩)
     ++ [⟨MacroEventType.keyPressed, key⟩, ⟨MacroEventType.keyReleased, key⟩]
     ++ (ghostcat_modifier_mapping.filter
        (fun m => (modifiers &&& m.modifier_mask) != 0)).map
        (fun m => ⟨MacroEventType.keyReleased, m.key⟩))

/-- `ghostcat_action_macro_num_keys` (libghostcat.c:1986): count of
non-modifier key-pressed events, stopping at the first `NONE`/`INVALID`
slot. -/
def ghostcat_action_macro_num_keys : List MacroEvent → Nat
  | [] => 0
  | e :: rest =>
    if e.type == MacroEventType.none || e.type == MacroEventType.invalid then 0
    else if ghostcat_key_is_modifier e.data then ghostcat_action_macro_num_keys rest
    else if e.type == MacroEventType.keyPressed then
      ghostcat_action_macro_num_keys rest + 1
    else ghostcat_action_macro_num_keys rest

/-- The `(modifier_key_count, action_key_count)` pair accumulated by the
loop of `ghostcat_action_is_single_modifier_key` (libghostcat.c:2007). -/
def singleModCounts : List MacroEvent → Nat × Nat
  | [] => (0, 0)
  | e :: rest =>
    if e.type == MacroEventType.none || e.type == MacroEventType.invalid then (0, 0)
    else
      let p := singleModCounts rest
      ((if ghostcat_key_is_modifier e.data && e.type == MacroEventType.keyPressed
        then p.1 + 1 else p.1),
       (if !ghostcat_key_is_modifier e.data && e.type == MacroEventType.keyPressed
        then p.2 + 1 else p.2))

/-- `ghostcat_action_is_single_modifier_key` (libghostcat.c:2007). -/
def ghostcat_action_is_single_modifier_key (evs : List MacroEvent) : Bool :=
  (singleModCounts evs).1 == 1 && (singleModCounts evs).2 == 0

/-- Result of `ghostcat_action_keycode_from_macro`: `einval` is the C
return value `-EINVAL`, `zero` is 0 (hit a `NONE` event mid-scan), and
`ok key modifiers` is return value 1 with the two out-parameters. -/
inductive DecodeResult where
  | einval
  | zero
  | ok (key modifiers : Nat)
deriving DecidableEq, Repr

/-- The main event loop of `ghostcat_action_keycode_from_macro`
(libghostcat.c:2055-2104), with the running `key` and `modifiers` locals
as arguments; exhausting all `MAX_MACRO_EVENTS` slots without returning
yields `-EINVAL`.  The mask clear `modifiers &= ~MODIFIER_X` is 32-bit
`unsigned int` arithmetic, hence `&&& (UINT_MAX ^^^ mask)`. -/
def keycodeLoop : List MacroEvent → Nat → Nat → DecodeResult
  | [], _, _ => .einval
  | e :: rest, key, modifiers =>
    match e.type with
    | .invalid => .einval
    | MacroEventType.none => .zero
    | .keyPressed =>
      if e.data == KEY_LEFTCTRL then keycodeLoop rest key (modifiers ||| MODIFIER_LEFTCTRL)
      else if e.data == KEY_LEFTSHIFT then keycodeLoop rest key (modifiers ||| MODIFIER_LEFTSHIFT)
      else if e.data == KEY_LEFTALT then keycodeLoop rest key (modifiers ||| MODIFIER_LEFTALT)
      else if e.data == KEY_LEFTMETA then keycodeLoop rest key (modifiers ||| MODIFIER_LEFTMETA)
      else if e.data == KEY_RIGHTCTRL then keycodeLoop rest key (modifiers ||| MODIFIER_RIGHTCTRL)
      else if e.data == KEY_RIGHTSHIFT then keycodeLoop rest key (modifiers ||| MODIFIER_RIGHTSHIFT)
      else if e.data == KEY_RIGHTALT then keycodeLoop rest key (modifiers ||| MODIFIER_RIGHTALT)
      else if e.data == KEY_RIGHTMETA then keycodeLoop rest key (modifiers ||| MODIFIER_RIGHTMETA)
      else if key != KEY_RESERVED then .einval
      else keycodeLoop rest e.data modifiers
    | .keyReleased =>
      if e.data == KEY_LEFTCTRL then keycodeLoop rest key (modifiers &&& (UINT_MAX ^^^ MODIFIER_LEFTCTRL))
      else if e.data == KEY_LEFTSHIFT then keycodeLoop rest key (modifiers &&& (UINT_MAX ^^^ MODIFIER_LEFTSHIFT))
      else if e.data == KEY_LEFTALT then keycodeLoop rest key (modifiers &&& (UINT_MAX ^^^ MODIFIER_LEFTALT))
      else if e.data == KEY_LEFTMETA then keycodeLoop rest key (modifiers &&& (UINT_MAX ^^^ MODIFIER_LEFTMETA))
      else if e.data == KEY_RIGHTCTRL then keycodeLoop rest key (modifiers &&& (UINT_MAX ^^^ MODIFIER_RIGHTCTRL))
      else if e.data == KEY_RIGHTSHIFT then keycodeLoop rest key (modifiers &&& (UINT_MAX ^^^ MODIFIER_RIGHTSHIFT))
      else if e.data == KEY_RIGHTALT then keycodeLoop rest key (modifiers &&& (UINT_MAX ^^^ MODIFIER_RIGHTALT))
      else if e.data == KEY_RIGHTMETA then keycodeLoop rest key (modifiers &&& (UINT_MAX ^^^ MODIFIER_RIGHTMETA))
      else if e.data != key then .einval
      else .ok key modifiers
    | .wait => keycodeLoop rest key modifiers

/-- `enum ghostcat_button_action_type`; `macroAction` stands for
`GHOSTCAT_BUTTON_ACTION_TYPE_MACRO`. -/
inductive ButtonActionType where
  | none
  | button
  | special
  | key
  | macroAction
deriving DecidableEq, Repr

/-- The part of `struct ghostcat_button_action` the decoder reads: the
type tag and the (possibly absent) macro's event array
(`action->macro->events`). -/
structure ButtonAction where
  type : ButtonActionType
  macroEvents : Option (List MacroEvent)
deriving DecidableEq, Repr

/-- `ghostcat_action_keycode_from_macro` (libghostcat.c:2029). -/
def ghostcat_action_keycode_decode (a : ButtonAction) : DecodeResult :=
  match a.macroEvents with
  | none => .einval
  | some evs =>
    if a.type != ButtonActionType.macroAction then .einval
    else if (evs.headD noneEvent).type == MacroEventType.none then .einval
    else if ghostcat_action_is_single_modifier_key evs then
      .ok (evs.headD noneEvent).data 0
    else if ghostcat_action_macro_num_keys evs != 1 then .einval
    else keycodeLoop evs KEY_RESERVED 0

/-! ### Object model: resolutions, buttons, LEDs, profiles, devices
(libghostcat-private.h structs; only the fields read or written by the
functions embedded below are carried). -/

/-- `struct ghostcat_resolution`: index, DPI pair, the four status bits
and the dirty flag. -/
structure GResolution where
  index : Nat := 0
  dpi_x : Nat := 0
  dpi_y : Nat := 0
  is_active : Bool := false
  is_default : Bool := false
  is_disabled : Bool := false
  is_dpi_shift_target : Bool := false
  dirty : Bool := false
deriving DecidableEq, Repr

/-- `struct ghostcat_button` (the fields commit touches). -/
structure GButton where
  index : Nat := 0
  dirty : Bool := false
deriving DecidableEq, Repr

/-- `struct ghostcat_led` (the fields commit touches). -/
structure GLed where
  index : Nat := 0
  dirty : Bool := false
deriving DecidableEq, Repr

/-- `struct ghostcat_profile`: the capability bitset
(`unsigned long capabilities[NLONGS(MAX_CAP)]`) is modelled as one `Nat`
bit set. -/
structure GProfile where
  index : Nat := 0
  hz : Nat := 0
  angle_snapping : Int := 0
  debounce : Int := 0
  is_active : Bool := false
  is_active_dirty : Bool := false
  is_enabled : Bool := false
  dirty : Bool := false
  rate_dirty : Bool := false
  angle_snapping_dirty : Bool := false
  debounce_dirty : Bool := false
  capabilities : Nat := 0
  resolutions : List GResolution := []
  buttons : List GButton := []
  leds : List GLed := []
deriving DecidableEq, Repr

/-- `struct ghostcat_device`: the profile list plus the `num_profiles`
counter field (kept separately, as in the C struct). -/
structure GDevice where
  num_profiles : Nat := 0
  profiles : List GProfile := []
deriving DecidableEq, Repr

/-- `GHOSTCAT_PROFILE_CAP_SET_DEFAULT = 101` and the sequential values
after it (libghostcat-test.h:181). -/
def GHOSTCAT_PROFILE_CAP_SET_DEFAULT : Nat := 101
def GHOSTCAT_PROFILE_CAP_DISABLE : Nat := 102
def GHOSTCAT_PROFILE_CAP_WRITE_ONLY : Nat := 103

/-- `ghostcat_profile_has_capability` (libghostcat.c:643):
`long_bit_is_set(profile->capabilities, cap)`.  (The C function aborts on
`cap == 0` or `cap >= MAX_CAP = 1000`; it is only applied to the valid
capability values above.) -/
def ghostcat_profile_has_capability (p : GProfile) (cap : Nat) : Bool :=
  p.capabilities.testBit cap

/-! ### Resolution status-bit setters (libghostcat.c:1177-1267)

Each C function receives a `struct ghostcat_resolution *`; here the target
is identified by its position `i` in the owning profile's resolution list.
The `none` fallback for an out-of-range position (impossible in C, where
the caller holds a pointer to a list element) returns the profile
unchanged. -/

/-- Map a function over a list together with each element's position,
mirroring the C pattern "iterate the siblings, comparing pointers". -/
def mapWithPos (f : Nat → α → α) : Nat → List α → List α
  | _, [] => []
  | j, a :: l => f j a :: mapWithPos f (j + 1) l

/-- Test a positional predicate somewhere in a list. -/
def anyWithPos (f : Nat → α → Bool) : Nat → List α → Bool
  | _, [] => false
  | j, a :: l => f j a || anyWithPos f (j + 1) l

/-- `ghostcat_resolution_set_active` (libghostcat.c:1177): reject a
disabled target; clear `is_active` on every resolution of the profile
(touching no dirty flag there); set `is_active` and `dirty` on the
target; set the profile dirty. -/
def ghostcat_resolution_set_active (p : GProfile) (i : Nat) : GError × GProfile :=
  match p.resolutions[i]? with
  | none => (.value, p)
  | some r =>
    if r.is_disabled then (.value, p)
    else
      let rs := p.resolutions.map (fun res => { res with is_active := false })
      let rs := rs.set i { r with is_active := true, dirty := true }
      (.success, { p with resolutions := rs, dirty := true })

/-- `ghostcat_resolution_set_default` (libghostcat.c:1203): reject a
disabled target; for every *other* resolution that has `is_default`, clear
its bit but mark the **target** (`resolution->dirty`, not `other->dirty`)
and the profile dirty; then, if the target does not already have the bit,
set it and mark target and profile dirty. -/
def ghostcat_resolution_set_default (p : GProfile) (i : Nat) : GError × GProfile :=
  match p.resolutions[i]? with
  | none => (.value, p)
  | some r =>
    if r.is_disabled then (.value, p)
    else
      let anyCleared := anyWithPos (fun j res => j != i && res.is_default) 0 p.resolutions
      let others := mapWithPos
        (fun j res => if j != i && res.is_default then { res with is_default := false } else res)
        0 p.resolutions
      let r1 := { r with dirty := r.dirty || anyCleared }
      let r2 := if !r.is_default then { r1 with is_default := true, dirty := true } else r1
      (.success, { p with resolutions := others.set i r2,
                          dirty := p.dirty || anyCleared || !r.is_default })

/-- `ghostcat_resolution_set_dpi_shift_target` (libghostcat.c:1239):
reject a disabled target; for every other resolution that has the bit,
clear it and mark that sibling and the profile dirty; then, if the target
does not already have the bit, set it and mark target and profile dirty. -/
def ghostcat_resolution_set_dpi_shift_target (p : GProfile) (i : Nat) : GError × GProfile :=
  match p.resolutions[i]? with
  | none => (.value, p)
  | some r =>
    if r.is_disabled then (.value, p)
    else
      let anyCleared := anyWithPos (fun j res => j != i && res.is_dpi_shift_target) 0 p.resolutions
      let others := mapWithPos
        (fun j res => if j != i && res.is_dpi_shift_target then
                        { res with is_dpi_shift_target := false, dirty := true }
                      else res)
        0 p.resolutions
      let r2 := if !r.is_dpi_shift_target then
                  { r with is_dpi_shift_target := true, dirty := true }
                else r
      (.success, { p with resolutions := others.set i r2,
                          dirty := p.dirty || anyCleared || !r.is_dpi_shift_target })

/-! ### Profile setters -/

/-- `ghostcat_profile_set_report_rate` (libghostcat.c:1042): store the
rate if it changed, marking profile and rate dirty; always succeeds. -/
def ghostcat_profile_set_report_rate (p : GProfile) (hz : Nat) : GError × GProfile :=
  if p.hz != hz then
    (.success, { p with hz := hz, dirty := true, rate_dirty := true })
  else (.success, p)

/-- `ghostcat_profile_set_enabled` (libghostcat.c:795). -/
def ghostcat_profile_set_enabled (p : GProfile) (enabled : Bool) : GError × GProfile :=
  if !ghostcat_profile_has_capability p GHOSTCAT_PROFILE_CAP_DISABLE then
    (.capability, p)
  else if p.is_active && !enabled then (.value, p)
  else (.success, { p with is_enabled := enabled, dirty := true })

/-- `ghostcat_profile_set_active` (libghostcat.c:896); the target profile
is position `i` in the device's profile list. -/
def ghostcat_profile_set_active (d : GDevice) (i : Nat) : GError × GDevice :=
  match d.profiles[i]? with
  | none => (.value, d)
  | some p =>
    if !p.is_enabled then (.value, d)
    else if d.num_profiles == 1 then (.success, d)
    else
      let cleared := d.profiles.map (fun q =>
        if q.is_active then { q with is_active := false, is_active_dirty := true, dirty := true }
        else q)
      let pTarget :=
        if p.is_active then { p with is_active := false, is_active_dirty := true, dirty := true }
        else p
      let pTarget := { pTarget with is_active := true, is_active_dirty := true, dirty := true }
      (.success, { d with profiles := cleared.set i pTarget })

/-! ### Drivers and commit (libghostcat.c:846) -/

/-- The driver callbacks `ghostcat_device_commit` and the poll loop
consult (`struct ghostcat_driver`, libghostcat-private.h:435).  The
callbacks return the C `int` result; their wire traffic is outside the
model.  A `none` entry is a NULL function pointer. -/
structure GDriver where
  commit : Option (GDevice → Int) := none
  set_active_profile : Option (GDevice → Nat → Int) := none
  refresh_active_resolution : Option (GDevice → Int) := none

/-- The per-profile flag clearing done by the commit loop body
(libghostcat.c:866-879): profile dirty, the three sub-dirty flags, and
every button/led/resolution dirty flag (`is_active_dirty` is cleared
separately at the end of the body). -/
def commitClearProfile (p : GProfile) : GProfile :=
  { p with dirty := false,
           angle_snapping_dirty := false,
           debounce_dirty := false,
           rate_dirty := false,
           buttons := p.buttons.map (fun b => { b with dirty := false }),
           leds := p.leds.map (fun l => { l with dirty := false }),
           resolutions := p.resolutions.map (fun r => { r with dirty := false }) }

/-- The `list_for_each` profile loop of `ghostcat_device_commit`
(libghostcat.c:865-891).  `acc` holds the already-processed profiles in
reverse; an early `return` leaves the current partially-cleared profile
and the untouched remainder in place, exactly as the in-place C mutation
does.  The `set_active_profile` callback sees the device with the
mutations applied so far, as in C. -/
def commitProfilesLoop (drv : GDriver) (dev : GDevice) (acc : List GProfile) :
    List GProfile → GError × List GProfile
  | [] => (.success, acc.reverse)
  | p :: rest =>
    let p1 := commitClearProfile p
    if p1.is_active_dirty && p1.is_active then
      match drv.set_active_profile with
      | none => (.implementation, acc.reverse ++ p1 :: rest)
      | some f =>
        let cur := { dev with profiles := acc.reverse ++ p1 :: rest }
        if f cur p1.index != 0 then (.device, acc.reverse ++ p1 :: rest)
        else commitProfilesLoop drv dev ({ p1 with is_active_dirty := false } :: acc) rest
    else commitProfilesLoop drv dev ({ p1 with is_active_dirty := false } :: acc) rest

/-- `ghostcat_device_commit` (libghostcat.c:846). -/
def ghostcat_device_commit (drv : GDriver) (d : GDevice) : GError × GDevice :=
  match drv.commit with
  | none => (.capability, d)
  | some commitCb =>
    if commitCb d != 0 then (.device, d)
    else
      let r := commitProfilesLoop drv d [] d.profiles
      (r.1, { d with profiles := r.2 })

/-- Every dirty flag of a profile's subtree is clear. -/
def profileClean (p : GProfile) : Bool :=
  !p.dirty && !p.rate_dirty && !p.angle_snapping_dirty && !p.debounce_dirty &&
  !p.is_active_dirty &&
  p.buttons.all (fun b => !b.dirty) &&
  p.leds.all (fun l => !l.dirty) &&
  p.resolutions.all (fun r => !r.dirty)

/-- Every dirty flag of the device's subtree is clear. -/
def deviceClean (d : GDevice) : Bool :=
  d.profiles.all profileClean

/-! ### Daemon: report-rate write, poll loop, argument parsing -/

/-- The clamp `rate < 125 → 125`, `rate > 8000 → 8000` performed by
`ghostcatd_profile_set_report_rate` (ghostcatd-device.c:1189-1193) before
it stores the value. -/
def ghostcatd_clamp_report_rate (rate : Nat) : Nat :=
  if rate < 125 then 125
  else if rate > 8000 then 8000
  else rate

/-- `ghostcatd_profile_set_report_rate` (ghostcatd-device.c:1171): clamp,
then store through `ghostcat_profile_set_report_rate` (the D-Bus signal
plumbing is outside the model). -/
def ghostcatd_profile_set_report_rate (p : GProfile) (rate : Nat) : GError × GProfile :=
  ghostcat_profile_set_report_rate p (ghostcatd_clamp_report_rate rate)

/-- `ghostcat_device_refresh_active_resolution` (libghostcat.c:1708): a
missing hook behaves as a no-op returning 0. -/
def ghostcat_device_refresh_active_resolution (drv : GDriver) (d : GDevice) : Int :=
  match drv.refresh_active_resolution with
  | none => 0
  | some f => f d

/-- A bus signal the daemon emits; `profileResync` stands for the
`ghostcatd_profile_resync` bundle for one profile (per-resolution,
per-button and per-led resync plus the `Resolutions`/`Buttons`/`Leds`/
`IsActive` property-changed notification, ghostcatd-device.c:1685). -/
inductive DSignal where
  | profileResync (profileIndex : Nat)
deriving DecidableEq, Repr

/-- `ghostcatd_device_poll_active_resolution` (ghostcatd-device.c:416):
refresh through the driver, and if the result is positive emit the
per-profile resync signals; returns `changed` alongside the emitted
signals. -/
def ghostcatd_device_poll_active_resolution (drv : GDriver) (d : GDevice) :
    Int × List DSignal :=
  let changed := ghostcat_device_refresh_active_resolution drv d
  if changed > 0 then
    (changed, d.profiles.map (fun p => DSignal.profileResync p.index))
  else (changed, [])

/-- Log levels of ghostcatd. -/
inductive DLogLevel where
  | quiet
  | raw
  | verbose
deriving DecidableEq, Repr

/-- Outcome of the `argv[1]` handling in `main` (ghostcatd.c:662-678):
`--version` prints the version and returns 0; the known flags set the log
level and fall through to daemon start-up; anything else prints the usage
message and sets `r = -EINVAL` (= -22). -/
inductive MainArgStep where
  | exitZero
  | setLogLevel (l : DLogLevel)
  | usageError (r : Int)
deriving DecidableEq, Repr

def main_handle_arg (arg : String) : MainArgStep :=
  if arg == "--version" then .exitZero
  else if arg == "--quiet" then .setLogLevel .quiet
  else if arg == "--verbose" || arg == "--verbose=raw" then .setLogLevel .raw
  else if arg == "--verbose=debug" then .setLogLevel .verbose
  else .usageError (-22)

/-- The `exit:` epilogue of `main` (ghostcatd.c:692-705): a negative `r`
yields `EXIT_FAILURE` (1), otherwise `EXIT_SUCCESS` (0). -/
def main_exit_code_of (r : Int) : Nat :=
  if r < 0 then 1 else 0

/-- The process exit status of ghostcatd as a function of `argv[1]`:
`some s` if `main` exits during argument handling with status `s`, `none`
if it proceeds to start the daemon. -/
def ghostcatd_arg_exit_status (arg : String) : Option Nat :=
  match main_handle_arg arg with
  | .exitZero => some 0
  | .setLogLevel _ => none
  | .usageError r => some (main_exit_code_of r)

/-! ### Spec-side predicates used to state the claims -/

/-- Every position `j ≠ i` of the list satisfies the positional predicate. -/
def allWithPos (f : Nat → α → Bool) : Nat → List α → Bool
  | _, [] => true
  | j, a :: l => f j a && allWithPos f (j + 1) l

/-- Position `i` holds the only enabled profile of the device (the spec's
"last enabled profile"). -/
def isLastEnabledProfile (d : GDevice) (i : Nat) : Bool :=
  (match d.profiles[i]? with
   | some p => p.is_enabled
   | none => false) &&
  allWithPos (fun j q => j == i || !q.is_enabled) 0 d.profiles

/-! ### Helper lemmas -/

theorem mapWithPos_getElem? (f : Nat → α → α) (k : Nat) (l : List α) (j : Nat) :
    (mapWithPos f k l)[j]? = l[j]?.map (f (k + j)) := by
  induction l generalizing k j with
  | nil => simp [mapWithPos]
  | cons a l ih =>
    cases j with
    | zero => simp [mapWithPos]
    | succ j =>
      have h := ih (k + 1) j
      simp only [mapWithPos, List.getElem?_cons_succ, h]
      have : k + 1 + j = k + (j + 1) := by omega
      rw [this]

theorem mapWithPos_length (f : Nat → α → α) (k : Nat) (l : List α) :
    (mapWithPos f k l).length = l.length := by
  induction l generalizing k with
  | nil => rfl
  | cons a l ih => simp [mapWithPos, ih]

/-- The stored report rate after the daemon's ReportRate write is always
the clamped value. -/
theorem ghostcatd_set_report_rate_hz (p : GProfile) (rate : Nat) :
    (ghostcatd_profile_set_report_rate p rate).2.hz = ghostcatd_clamp_report_rate rate ∧
    (ghostcatd_profile_set_report_rate p rate).1 = .success := by
  unfold ghostcatd_profile_set_report_rate ghostcat_profile_set_report_rate
  by_cases h : p.hz = ghostcatd_clamp_report_rate rate
  · simp [h]
  · simp [bne_iff_ne, h, Ne.symm]

/-- C5: a ReportRate value written on the bus is clamped into [125, 8000]
before being stored (values below 125 become 125, values above 8000
become 8000, in-range values are stored as-is) and the write is accepted:
the setter returns Success. -/
theorem report_rate_clamped_on_write (p : GProfile) (rate : Nat) :
    (ghostcatd_profile_set_report_rate p rate).1 = .success ∧
    125 ≤ (ghostcatd_profile_set_report_rate p rate).2.hz ∧
    (ghostcatd_profile_set_report_rate p rate).2.hz ≤ 8000 ∧
    (rate < 125 → (ghostcatd_profile_set_report_rate p rate).2.hz = 125) ∧
    (8000 < rate → (ghostcatd_profile_set_report_rate p rate).2.hz = 8000) ∧
    (125 ≤ rate → rate ≤ 8000 → (ghostcatd_profile_set_report_rate p rate).2.hz = rate) := by
  obtain ⟨hhz, hrc⟩ := ghostcatd_set_report_rate_hz p rate
  rw [hhz, hrc]
  unfold ghostcatd_clamp_report_rate
  refine ⟨rfl, ?_, ?_, ?_, ?_, ?_⟩ <;> split_ifs <;> omega

/-- Witness for `report_rate_clamped_on_write` at the spec's S2 scenario:
writing 50 to a profile running at 1000 Hz stores 125. -/
theorem report_rate_clamped_on_write_witness :
    (ghostcatd_profile_set_report_rate { hz := 1000 } 50).1 = .success ∧
    (ghostcatd_profile_set_report_rate { hz := 1000 } 50).2.hz = 125 :=
  ⟨(report_rate_clamped_on_write { hz := 1000 } 50).1,
   (report_rate_clamped_on_write { hz := 1000 } 50).2.2.2.1 (by decide)⟩

/-- C6: each of the three status-bit setters, called on a disabled
resolution, returns the Invalid-Value error and leaves the profile (all
status bits and dirty flags included) completely unchanged. -/
theorem disabled_resolution_setters_reject (p : GProfile) (i : Nat) (r : GResolution)
    (hr : p.resolutions[i]? = some r) (hdis : r.is_disabled = true) :
    ghostcat_resolution_set_active p i = (.value, p) ∧
    ghostcat_resolution_set_default p i = (.value, p) ∧
    ghostcat_resolution_set_dpi_shift_target p i = (.value, p) := by
  refine ⟨?_, ?_, ?_⟩ <;>
    simp [ghostcat_resolution_set_active, ghostcat_resolution_set_default,
          ghostcat_resolution_set_dpi_shift_target, hr, hdis]

/-- Witness for `disabled_resolution_setters_reject`. -/
theorem disabled_resolution_setters_reject_witness :
    ghostcat_resolution_set_active { resolutions := [{ is_disabled := true }] } 0 =
      (.value, { resolutions := [{ is_disabled := true }] }) ∧
    ghostcat_resolution_set_default { resolutions := [{ is_disabled := true }] } 0 =
      (.value, { resolutions := [{ is_disabled := true }] }) ∧
    ghostcat_resolution_set_dpi_shift_target { resolutions := [{ is_disabled := true }] } 0 =
      (.value, { resolutions := [{ is_disabled := true }] }) :=
  disabled_resolution_setters_reject { resolutions := [{ is_disabled := true }] } 0
    { is_disabled := true } (by decide) (by decide)

/-- C10: on a device with exactly one profile, activating that (enabled)
profile returns Success and the device — in particular the profile's
`is_active`, `is_active_dirty` and `dirty` flags — is unchanged. -/
theorem single_profile_set_active_noop (d : GDevice) (i : Nat) (p : GProfile)
    (hp : d.profiles[i]? = some p) (hen : p.is_enabled = true)
    (h1 : d.num_profiles = 1) :
    ghostcat_profile_set_active d i = (.success, d) := by
  simp [ghostcat_profile_set_active, hp, hen, h1]

/-- Witness for `single_profile_set_active_noop`: a one-profile device
with pre-existing flag values, all preserved. -/
theorem single_profile_set_active_noop_witness :
    ghostcat_profile_set_active
        { num_profiles := 1, profiles := [{ is_enabled := true, is_active := true, dirty := true }] } 0 =
      (.success,
       { num_profiles := 1, profiles := [{ is_enabled := true, is_active := true, dirty := true }] }) :=
  single_profile_set_active_noop
    { num_profiles := 1, profiles := [{ is_enabled := true, is_active := true, dirty := true }] } 0
    { is_enabled := true, is_active := true, dirty := true } (by decide) (by decide) (by decide)

/-- A two-profile device whose only enabled profile (position 1) is not
the active one; both profiles advertise the disable capability. -/
def lastEnabledCexDevice : GDevice :=
  { num_profiles := 2,
    profiles := [{ index := 0, is_enabled := false, is_active := true, capabilities := 2 ^ 102 },
                 { index := 1, is_enabled := true, is_active := false, capabilities := 2 ^ 102 }] }

/-- The profile at position 1 of `lastEnabledCexDevice`. -/
def lastEnabledCexProfile : GProfile :=
  { index := 1, is_enabled := true, is_active := false, capabilities := 2 ^ 102 }

/-- Counterexample to C7 as stated: the profile at position 1 of
`lastEnabledCexDevice` has the disable capability and is the last enabled
profile of its device, yet `ghostcat_profile_set_enabled(profile, false)`
returns Success and disables it, marking it dirty — the code has no
last-enabled check. -/
theorem last_enabled_profile_disable_succeeds :
    isLastEnabledProfile lastEnabledCexDevice 1 = true ∧
    lastEnabledCexDevice.profiles[1]? = some lastEnabledCexProfile ∧
    ghostcat_profile_has_capability lastEnabledCexProfile GHOSTCAT_PROFILE_CAP_DISABLE = true ∧
    lastEnabledCexProfile.is_active = false ∧
    (ghostcat_profile_set_enabled lastEnabledCexProfile false).1 = .success ∧
    (ghostcat_profile_set_enabled lastEnabledCexProfile false).2.is_enabled = false ∧
    (ghostcat_profile_set_enabled lastEnabledCexProfile false).2.dirty = true := by
  decide

/-- C7 (amended): for a profile with the disable capability,
`ghostcat_profile_set_enabled(profile, false)` fails with the
Invalid-Value error exactly when the profile is the active profile, and
in that case leaves the profile (its `is_enabled` and `dirty` flags
included) unchanged; the function performs no last-enabled check, so a
non-active profile is disabled successfully even when it is the last
enabled profile of its device. -/
theorem set_enabled_checks_active_only (p : GProfile)
    (hcap : ghostcat_profile_has_capability p GHOSTCAT_PROFILE_CAP_DISABLE = true) :
    (p.is_active = true → ghostcat_profile_set_enabled p false = (.value, p)) ∧
    (p.is_active = false → ghostcat_profile_set_enabled p false =
      (.success, { p with is_enabled := false, dirty := true })) := by
  constructor <;> intro h <;> simp [ghostcat_profile_set_enabled, hcap, h]

/-- Witness for `set_enabled_checks_active_only`: disabling an active
profile with the disable capability is rejected without state change. -/
theorem set_enabled_checks_active_only_witness :
    ghostcat_profile_set_enabled { is_active := true, is_enabled := true, capabilities := 2 ^ 102 } false =
      (.value, { is_active := true, is_enabled := true, capabilities := 2 ^ 102 }) :=
  (set_enabled_checks_active_only
      { is_active := true, is_enabled := true, capabilities := 2 ^ 102 } (by decide)).1 (by decide)

/-- C8: on a poll tick the per-profile resync signals for a device are
emitted exactly when the driver's `refresh_active_resolution` hook
returned a positive value (given the device has profiles to signal);
a driver without the hook behaves as if the hook returned 0 and never
triggers the signals. -/
theorem poll_resync_iff_positive_refresh (drv : GDriver) (d : GDevice) :
    ((ghostcatd_device_poll_active_resolution drv d).1 =
      ghostcat_device_refresh_active_resolution drv d) ∧
    ((ghostcatd_device_poll_active_resolution drv d).2 ≠ [] ↔
      (0 < ghostcat_device_refresh_active_resolution drv d ∧ d.profiles ≠ [])) ∧
    (drv.refresh_active_resolution = none →
      ghostcat_device_refresh_active_resolution drv d = 0 ∧
      (ghostcatd_device_poll_active_resolution drv d).2 = []) := by
  refine ⟨?_, ?_, ?_⟩
  · by_cases h : 0 < ghostcat_device_refresh_active_resolution drv d <;>
      simp [ghostcatd_device_poll_active_resolution, h]
  · by_cases h : 0 < ghostcat_device_refresh_active_resolution drv d <;>
      simp [ghostcatd_device_poll_active_resolution, h]
  · intro h
    have h0 : ghostcat_device_refresh_active_resolution drv d = 0 := by
      unfold ghostcat_device_refresh_active_resolution
      rw [h]
    refine ⟨h0, ?_⟩
    simp [ghostcatd_device_poll_active_resolution, h0]

/-- Witness for `poll_resync_iff_positive_refresh`: a hook-less driver
yields 0 and no signals. -/
theorem poll_resync_iff_positive_refresh_witness :
    ghostcat_device_refresh_active_resolution { } { num_profiles := 1, profiles := [{ }] } = 0 ∧
    (ghostcatd_device_poll_active_resolution { } { num_profiles := 1, profiles := [{ }] }).2 = [] :=
  (poll_resync_iff_positive_refresh { } { num_profiles := 1, profiles := [{ }] }).2.2 rfl

/-- Counterexample to C9 as stated: on the unknown argument `--help` the
daemon exits with status 1 (`EXIT_FAILURE`), not 22. -/
theorem unknown_arg_exit_status_not_22 :
    ghostcatd_arg_exit_status "--help" = some 1 ∧
    ghostcatd_arg_exit_status "--help" ≠ some 22 := by
  decide

/-- C9 (amended): a command-line argument other than `--version`,
`--quiet`, `--verbose`, `--verbose=raw`, `--verbose=debug` makes `main`
print the usage message and set the internal error `r = -EINVAL` (-22);
the process then exits with status `EXIT_FAILURE` = 1 (not 22). -/
theorem unknown_arg_exits_with_failure (arg : String)
    (h1 : arg ≠ "--version") (h2 : arg ≠ "--quiet") (h3 : arg ≠ "--verbose")
    (h4 : arg ≠ "--verbose=raw") (h5 : arg ≠ "--verbose=debug") :
    main_handle_arg arg = .usageError (-22) ∧
    ghostcatd_arg_exit_status arg = some 1 := by
  have e : main_handle_arg arg = .usageError (-22) := by
    simp [main_handle_arg, h1, h2, h3, h4, h5]
  refine ⟨e, ?_⟩
  unfold ghostcatd_arg_exit_status
  rw [e]
  rfl

/-- Witness for `unknown_arg_exits_with_failure` at `--help`. -/
theorem unknown_arg_exits_with_failure_witness :
    main_handle_arg "--help" = .usageError (-22) ∧
    ghostcatd_arg_exit_status "--help" = some 1 :=
  unknown_arg_exits_with_failure "--help" (by decide) (by decide) (by decide)
    (by decide) (by decide)

/-- C2: a macro whose written events are exactly one key-pressed event of
a modifier key decodes successfully to that modifier as the key with an
empty modifier mask. -/
theorem single_modifier_macro_decodes (m : Nat)
    (hm : ghostcat_key_is_modifier m = true) :
    ghostcat_action_keycode_decode
        ⟨.macroAction, some (mkMacroEvents [⟨MacroEventType.keyPressed, m⟩])⟩ =
      .ok m 0 := by
  have hcases : m = KEY_LEFTCTRL ∨ m = KEY_LEFTSHIFT ∨ m = KEY_LEFTALT ∨
      m = KEY_LEFTMETA ∨ m = KEY_RIGHTCTRL ∨ m = KEY_RIGHTSHIFT ∨
      m = KEY_RIGHTALT ∨ m = KEY_RIGHTMETA := by
    have h' := hm
    simp [ghostcat_key_is_modifier] at h'
    tauto
  rcases hcases with h | h | h | h | h | h | h | h <;> subst h <;> decide

/-- Witness for `single_modifier_macro_decodes`: the spec's S3 scenario,
a lone left-ctrl press. -/
theorem single_modifier_macro_decodes_witness :
    ghostcat_action_keycode_decode
        ⟨.macroAction, some (mkMacroEvents [⟨MacroEventType.keyPressed, KEY_LEFTCTRL⟩])⟩ =
      .ok KEY_LEFTCTRL 0 :=
  single_modifier_macro_decodes KEY_LEFTCTRL (by decide)

/-! ### C3: the status-bit setters and their dirty-marking behavior -/

/-- Closed form of `ghostcat_resolution_set_active` on a valid,
non-disabled target. -/
theorem set_active_result (p : GProfile) (i : Nat) (r : GResolution)
    (hr : p.resolutions[i]? = some r) (hdis : r.is_disabled = false) :
    ghostcat_resolution_set_active p i =
      (.success,
       { p with
         resolutions :=
           (p.resolutions.map (fun res => { res with is_active := false })).set i
             { r with is_active := true, dirty := true },
         dirty := true }) := by
  simp [ghostcat_resolution_set_active, hr, hdis]

/-- Closed form of `ghostcat_resolution_set_default` on a valid,
non-disabled target. -/
theorem set_default_result (p : GProfile) (i : Nat) (r : GResolution)
    (hr : p.resolutions[i]? = some r) (hdis : r.is_disabled = false) :
    ghostcat_resolution_set_default p i =
      (.success,
       { p with
         resolutions :=
           (mapWithPos
              (fun j res => if j != i && res.is_default then { res with is_default := false } else res)
              0 p.resolutions).set i
             (if !r.is_default then
                { r with is_default := true, dirty := true }
              else
                { r with dirty := r.dirty || anyWithPos (fun j res => j != i && res.is_default) 0 p.resolutions }),
         dirty := p.dirty || anyWithPos (fun j res => j != i && res.is_default) 0 p.resolutions || !r.is_default }) := by
  simp only [ghostcat_resolution_set_default, hr, hdis, Bool.false_eq_true, if_false]

/-- Closed form of `ghostcat_resolution_set_dpi_shift_target` on a valid,
non-disabled target. -/
theorem set_shift_result (p : GProfile) (i : Nat) (r : GResolution)
    (hr : p.resolutions[i]? = some r) (hdis : r.is_disabled = false) :
    ghostcat_resolution_set_dpi_shift_target p i =
      (.success,
       { p with
         resolutions :=
           (mapWithPos
              (fun j res => if j != i && res.is_dpi_shift_target then
                              { res with is_dpi_shift_target := false, dirty := true }
                            else res)
              0 p.resolutions).set i
             (if !r.is_dpi_shift_target then
                { r with is_dpi_shift_target := true, dirty := true }
              else r),
         dirty := p.dirty || anyWithPos (fun j res => j != i && res.is_dpi_shift_target) 0 p.resolutions || !r.is_dpi_shift_target }) := by
  simp only [ghostcat_resolution_set_dpi_shift_target, hr, hdis, Bool.false_eq_true, if_false]

/-- The profile used as counterexample input for C3: resolution 0 is the
active one, resolution 1 the target. -/
def siblingDirtyCexProfile : GProfile :=
  { resolutions := [{ index := 0, is_active := true }, { index := 1 }] }

/-- Counterexample to C3 as stated: `ghostcat_resolution_set_active` on
resolution 1 clears the `is_active` bit of sibling resolution 0 but does
not mark that sibling dirty (its dirty flag stays false), contradicting
"marking each sibling whose bit it clears dirty". -/
theorem set_active_sibling_not_marked_dirty :
    siblingDirtyCexProfile.resolutions[0]?.map (fun s => s.is_active) = some true ∧
    (ghostcat_resolution_set_active siblingDirtyCexProfile 1).1 = .success ∧
    (ghostcat_resolution_set_active siblingDirtyCexProfile 1).2.resolutions[0]?.map
      (fun s => s.is_active) = some false ∧
    (ghostcat_resolution_set_active siblingDirtyCexProfile 1).2.resolutions[0]?.map
      (fun s => s.dirty) = some false := by
  decide

/-- If every position other than `i` fails the bit, no two distinct
positions both hold the bit. -/
theorem atMostOneAux {bit : GResolution → Bool} (rs : List GResolution) (i : Nat)
    (hother : ∀ j, j ≠ i → ∀ t, rs[j]? = some t → bit t = false) :
    ∀ (j k : Nat) (s t : GResolution), j ≠ k → rs[j]? = some s → rs[k]? = some t →
      ¬(bit s = true ∧ bit t = true) := by
  intro j k s t hjk hj hk hst
  by_cases hji : j = i
  · have hki : k ≠ i := fun h => hjk (h ▸ hji ▸ rfl)
    have := hother k hki t hk
    rw [this] at hst
    exact absurd hst.2 (by simp)
  · have := hother j hji s hj
    rw [this] at hst
    exact absurd hst.1 (by simp)

/-- C3 (amended): each of the three setters, called on a non-disabled
resolution, first clears its bit on every sibling of the profile and then
sets the bit on the target, so afterwards the target is the unique holder
(at most one resolution of the profile holds the bit), and the profile is
marked dirty (for `set_default`/`set_dpi_shift_target` at least when the
target gains the bit).  The setters differ on sibling dirty-marking:
`set_dpi_shift_target` marks each cleared sibling dirty, `set_active`
leaves every sibling's dirty flag unchanged (marking only the target),
and `set_default` marks the target rather than the cleared sibling dirty
— the per-sibling closed forms below record this exactly. -/
theorem status_bit_setters_exclusive (p : GProfile) (i : Nat) (r : GResolution)
    (hr : p.resolutions[i]? = some r) (hdis : r.is_disabled = false) :
    ((ghostcat_resolution_set_active p i).1 = .success ∧
     (ghostcat_resolution_set_active p i).2.resolutions[i]? =
        some { r with is_active := true, dirty := true } ∧
     (∀ j, j ≠ i → (ghostcat_resolution_set_active p i).2.resolutions[j]? =
        p.resolutions[j]?.map (fun s => { s with is_active := false })) ∧
     (ghostcat_resolution_set_active p i).2.dirty = true ∧
     (∀ (j k : Nat) (s t : GResolution), j ≠ k →
        (ghostcat_resolution_set_active p i).2.resolutions[j]? = some s →
        (ghostcat_resolution_set_active p i).2.resolutions[k]? = some t →
        ¬(s.is_active = true ∧ t.is_active = true))) ∧
    ((ghostcat_resolution_set_default p i).1 = .success ∧
     (ghostcat_resolution_set_default p i).2.resolutions[i]?.map
        (fun s => s.is_default) = some true ∧
     (r.is_default = false →
        (ghostcat_resolution_set_default p i).2.resolutions[i]? =
          some { r with is_default := true, dirty := true } ∧
        (ghostcat_resolution_set_default p i).2.dirty = true) ∧
     (∀ j, j ≠ i → (ghostcat_resolution_set_default p i).2.resolutions[j]? =
        p.resolutions[j]?.map
          (fun s => if s.is_default then { s with is_default := false } else s)) ∧
     (∀ (j k : Nat) (s t : GResolution), j ≠ k →
        (ghostcat_resolution_set_default p i).2.resolutions[j]? = some s →
        (ghostcat_resolution_set_default p i).2.resolutions[k]? = some t →
        ¬(s.is_default = true ∧ t.is_default = true))) ∧
    ((ghostcat_resolution_set_dpi_shift_target p i).1 = .success ∧
     (ghostcat_resolution_set_dpi_shift_target p i).2.resolutions[i]?.map
        (fun s => s.is_dpi_shift_target) = some true ∧
     (r.is_dpi_shift_target = false →
        (ghostcat_resolution_set_dpi_shift_target p i).2.resolutions[i]? =
          some { r with is_dpi_shift_target := true, dirty := true } ∧
        (ghostcat_resolution_set_dpi_shift_target p i).2.dirty = true) ∧
     (∀ j, j ≠ i → (ghostcat_resolution_set_dpi_shift_target p i).2.resolutions[j]? =
        p.resolutions[j]?.map
          (fun s => if s.is_dpi_shift_target then
                      { s with is_dpi_shift_target := false, dirty := true }
                    else s)) ∧
     (∀ (j k : Nat) (s t : GResolution), j ≠ k →
        (ghostcat_resolution_set_dpi_shift_target p i).2.resolutions[j]? = some s →
        (ghostcat_resolution_set_dpi_shift_target p i).2.resolutions[k]? = some t →
        ¬(s.is_dpi_shift_target = true ∧ t.is_dpi_shift_target = true))) := by
  have hi : i < p.resolutions.length := (List.getElem?_eq_some.mp hr).1
  have hA := set_active_result p i r hr hdis
  have hD := set_default_result p i r hr hdis
  have hS := set_shift_result p i r hr hdis
  refine ⟨⟨?_, ?_, ?_, ?_, ?_⟩, ⟨?_, ?_, ?_, ?_, ?_⟩, ⟨?_, ?_, ?_, ?_, ?_⟩⟩
  · rw [hA]
  · rw [hA]
    exact List.getElem?_set_eq_of_lt _ (by simpa using hi)
  · intro j hj
    rw [hA]
    simp only
    rw [List.getElem?_set_ne (fun h => hj h.symm), List.getElem?_map]
  · rw [hA]
  · rw [hA]
    refine atMostOneAux _ i (fun j hj t ht => ?_)
    rw [List.getElem?_set_ne (fun h => hj h.symm), List.getElem?_map] at ht
    obtain ⟨s, _, hst⟩ := Option.map_eq_some'.mp ht
    rw [← hst]
  · rw [hD]
  · rw [hD]
    simp only
    rw [List.getElem?_set_eq_of_lt _ (by simpa [mapWithPos_length] using hi)]
    by_cases hd : r.is_default <;> simp [hd]
  · intro hd
    rw [hD]
    constructor
    · simp only
      rw [List.getElem?_set_eq_of_lt _ (by simpa [mapWithPos_length] using hi)]
      simp [hd]
    · simp [hd]
  · intro j hj
    rw [hD]
    simp only
    rw [List.getElem?_set_ne (fun h => hj h.symm), mapWithPos_getElem?]
    cases hpj : p.resolutions[j]? with
    | none => rfl
    | some s =>
      have hbne : (j != i) = true := by simpa using hj
      simp [hbne]
  · rw [hD]
    refine atMostOneAux _ i (fun j hj t ht => ?_)
    rw [List.getElem?_set_ne (fun h => hj h.symm), mapWithPos_getElem?] at ht
    obtain ⟨s, _, hst⟩ := Option.map_eq_some'.mp ht
    have hbne : (j != i) = true := by simpa using hj
    rw [← hst]
    simp only [Nat.zero_add, hbne, Bool.true_and]
    by_cases hsd : s.is_default <;> simp [hsd]
  · rw [hS]
  · rw [hS]
    simp only
    rw [List.getElem?_set_eq_of_lt _ (by simpa [mapWithPos_length] using hi)]
    by_cases hd : r.is_dpi_shift_target <;> simp [hd]
  · intro hd
    rw [hS]
    constructor
    · simp only
      rw [List.getElem?_set_eq_of_lt _ (by simpa [mapWithPos_length] using hi)]
      simp [hd]
    · simp [hd]
  · intro j hj
    rw [hS]
    simp only
    rw [List.getElem?_set_ne (fun h => hj h.symm), mapWithPos_getElem?]
    cases hpj : p.resolutions[j]? with
    | none => rfl
    | some s =>
      have hbne : (j != i) = true := by simpa using hj
      simp [hbne]
  · rw [hS]
    refine atMostOneAux _ i (fun j hj t ht => ?_)
    rw [List.getElem?_set_ne (fun h => hj h.symm), mapWithPos_getElem?] at ht
    obtain ⟨s, _, hst⟩ := Option.map_eq_some'.mp ht
    have hbne : (j != i) = true := by simpa using hj
    rw [← hst]
    simp only [Nat.zero_add, hbne, Bool.true_and]
    by_cases hsd : s.is_dpi_shift_target <;> simp [hsd]

/-- Witness for `status_bit_setters_exclusive` at the spec's S1 scenario
shape: two resolutions, the bit initially on resolution 0, setter called
on resolution 1. -/
theorem status_bit_setters_exclusive_witness :
    (ghostcat_resolution_set_active
        { resolutions := [{ index := 0, is_active := true }, { index := 1 }] } 1).1 = .success ∧
    (ghostcat_resolution_set_active
        { resolutions := [{ index := 0, is_active := true }, { index := 1 }] } 1).2.resolutions[1]? =
      some { index := 1, is_active := true, dirty := true } :=
  ⟨(status_bit_setters_exclusive
      { resolutions := [{ index := 0, is_active := true }, { index := 1 }] } 1
      { index := 1 } (by decide) (by decide)).1.1,
   (status_bit_setters_exclusive
      { resolutions := [{ index := 0, is_active := true }, { index := 1 }] } 1
      { index := 1 } (by decide) (by decide)).1.2.1⟩

/-! ### C4: commit and the dirty subtree -/

/-- When the driver implements `set_active_profile` and it always
succeeds, the commit loop clears every flag of every profile and returns
Success. -/
theorem commitProfilesLoop_all_zero (drv : GDriver) (f : GDevice → Nat → Int)
    (hf : drv.set_active_profile = some f) (hz : ∀ dev i, f dev i = 0)
    (dev : GDevice) :
    ∀ (ps acc : List GProfile),
      commitProfilesLoop drv dev acc ps =
        (.success,
         acc.reverse ++ ps.map (fun p => { commitClearProfile p with is_active_dirty := false })) := by
  intro ps
  induction ps with
  | nil => intro acc; simp [commitProfilesLoop]
  | cons p rest ih =>
    intro acc
    by_cases hc : (commitClearProfile p).is_active_dirty && (commitClearProfile p).is_active
    · simp only [commitProfilesLoop, hc, if_true, hf]
      rw [hz]
      simp only [bne_self_eq_false, if_false, Bool.false_eq_true]
      rw [ih]
      simp
    · simp only [commitProfilesLoop, hc, Bool.false_eq_true, if_false]
      rw [ih]
      simp

/-- A profile processed by the commit loop has a clean subtree. -/
theorem profileClean_commitClear (p : GProfile) :
    profileClean { commitClearProfile p with is_active_dirty := false } = true := by
  simp [profileClean, commitClearProfile, List.all_map, Function.comp]

/-- Driver and device exhibiting the failure of C4 as stated: the driver's
commit callback succeeds (returns 0) but `set_active_profile` is NULL
while a profile has a pending active transition. -/
def commitCexDriver : GDriver := { commit := some (fun _ => 0) }

def commitCexDevice : GDevice :=
  { num_profiles := 1,
    profiles := [{ index := 0, is_enabled := true, is_active := true,
                   is_active_dirty := true, dirty := true }] }

/-- Counterexample to C4 as stated: the driver's commit callback succeeds
on `commitCexDevice`, yet `ghostcat_device_commit` returns the
Implementation error (not Success) and leaves `is_active_dirty` set, so
not every dirty flag is cleared. -/
theorem commit_success_without_set_active_profile :
    commitCexDriver.commit = some (fun _ => 0) ∧
    (fun (_ : GDevice) => (0 : Int)) commitCexDevice = 0 ∧
    (ghostcat_device_commit commitCexDriver commitCexDevice).1 = .implementation ∧
    deviceClean (ghostcat_device_commit commitCexDriver commitCexDevice).2 = false ∧
    ((ghostcat_device_commit commitCexDriver commitCexDevice).2.profiles[0]?.map
      (fun p => p.is_active_dirty)) = some true :=
  ⟨rfl, rfl, rfl, rfl, rfl⟩

/-- C4 (amended): if the driver's commit callback fails,
`ghostcat_device_commit` returns the Device error and the device — every
dirty flag included — is unchanged.  If the commit callback succeeds and
the driver implements `set_active_profile` with every call succeeding,
`ghostcat_device_commit` returns Success and every dirty flag in the
subtree (profile `dirty`, `rate_dirty`, `angle_snapping_dirty`,
`debounce_dirty`, `is_active_dirty`, and the dirty flag of every button,
led and resolution) is cleared.  (If the commit callback succeeds but a
pending active transition meets a missing or failing `set_active_profile`
callback, commit instead returns the Implementation or Device error with
the flags only partially cleared.) -/
theorem device_commit_clears_dirty_subtree (drv : GDriver) (d : GDevice)
    (c : GDevice → Int) (f : GDevice → Nat → Int)
    (hc : drv.commit = some c) (hf : drv.set_active_profile = some f)
    (hz : ∀ dev i, f dev i = 0) :
    (c d ≠ 0 → ghostcat_device_commit drv d = (.device, d)) ∧
    (c d = 0 →
      (ghostcat_device_commit drv d).1 = .success ∧
      deviceClean (ghostcat_device_commit drv d).2 = true) := by
  constructor
  · intro hcd
    simp [ghostcat_device_commit, hc, bne_iff_ne, hcd]
  · intro hcd
    have hloop := commitProfilesLoop_all_zero drv f hf hz d d.profiles []
    constructor
    · simp only [ghostcat_device_commit, hc, hcd, bne_self_eq_false, Bool.false_eq_true,
                 if_false, hloop]
    · simp only [ghostcat_device_commit, hc, hcd, bne_self_eq_false, Bool.false_eq_true,
                 if_false, hloop]
      simp only [deviceClean, List.reverse_nil, List.nil_append]
      rw [List.all_eq_true]
      intro x hx
      obtain ⟨p, _, rfl⟩ := List.mem_map.mp hx
      exact profileClean_commitClear p

/-- Witness for `device_commit_clears_dirty_subtree`: a driver whose
commit and set-active callbacks both succeed clears the whole dirty
subtree of a device with a pending active transition and a dirty
button. -/
theorem device_commit_clears_dirty_subtree_witness :
    (ghostcat_device_commit
        { commit := some (fun _ => 0), set_active_profile := some (fun _ _ => 0) }
        { num_profiles := 1,
          profiles := [{ index := 0, is_enabled := true, is_active := true,
                         is_active_dirty := true, dirty := true, rate_dirty := true,
                         buttons := [{ index := 0, dirty := true }] }] }).1 = .success ∧
    deviceClean
      (ghostcat_device_commit
        { commit := some (fun _ => 0), set_active_profile := some (fun _ _ => 0) }
        { num_profiles := 1,
          profiles := [{ index := 0, is_enabled := true, is_active := true,
                         is_active_dirty := true, dirty := true, rate_dirty := true,
                         buttons := [{ index := 0, dirty := true }] }] }).2 = true :=
  (device_commit_clears_dirty_subtree
      { commit := some (fun _ => 0), set_active_profile := some (fun _ _ => 0) }
      { num_profiles := 1,
        profiles := [{ index := 0, is_enabled := true, is_active := true,
                       is_active_dirty := true, dirty := true, rate_dirty := true,
                       buttons := [{ index := 0, dirty := true }] }] }
      (fun _ => 0) (fun _ _ => 0) rfl rfl (fun _ _ => rfl)).2 rfl

/-! ### C1: the encode/decode round trip -/

/-- Every key of the modifier table is recognised by
`ghostcat_key_is_modifier`. -/
theorem mapping_key_is_modifier :
    ∀ m ∈ ghostcat_modifier_mapping, ghostcat_key_is_modifier m.key = true := by
  decide

/-- With the written events shorter than the array, the macro array is the
written prefix, a `NONE` slot, and more `NONE` padding. -/
theorem mkMacroEvents_eq (evs : List MacroEvent) (h : evs.length < 256) :
    mkMacroEvents evs =
      evs ++ noneEvent :: List.replicate (255 - evs.length) noneEvent := by
  unfold mkMacroEvents MAX_MACRO_EVENTS
  congr 1
  have h1 : 256 - evs.length = (255 - evs.length) + 1 := by omega
  rw [h1, List.replicate_succ]

/-- A key-pressed event of a table modifier ORs its mask into the running
modifier set. -/
theorem keycodeLoop_press_modifier (m : ModifierMapping)
    (hm : m ∈ ghostcat_modifier_mapping) (l : List MacroEvent) (key mods : Nat) :
    keycodeLoop (⟨MacroEventType.keyPressed, m.key⟩ :: l) key mods =
      keycodeLoop l key (mods ||| m.modifier_mask) := by
  fin_cases hm <;>
    simp [keycodeLoop, KEY_LEFTCTRL, KEY_LEFTSHIFT, KEY_LEFTALT, KEY_LEFTMETA,
          KEY_RIGHTCTRL, KEY_RIGHTSHIFT, KEY_RIGHTALT, KEY_RIGHTMETA,
          MODIFIER_LEFTCTRL, MODIFIER_LEFTSHIFT, MODIFIER_LEFTALT, MODIFIER_LEFTMETA,
          MODIFIER_RIGHTCTRL, MODIFIER_RIGHTSHIFT, MODIFIER_RIGHTALT, MODIFIER_RIGHTMETA]

/-- The whole run of modifier presses accumulates the left fold of the
masks. -/
theorem keycodeLoop_presses (sel : List ModifierMapping)
    (hsel : ∀ m ∈ sel, m ∈ ghostcat_modifier_mapping) (l : List MacroEvent)
    (key : Nat) :
    ∀ mods : Nat,
      keycodeLoop (sel.map (fun m => (⟨MacroEventType.keyPressed, m.key⟩ : MacroEvent)) ++ l) key mods =
        keycodeLoop l key (sel.foldl (fun acc m => acc ||| m.modifier_mask) mods) := by
  induction sel with
  | nil => intro mods; simp
  | cons m sel ih =>
    intro mods
    have hm : m ∈ ghostcat_modifier_mapping := hsel m (List.mem_cons_self _ _)
    have hrest : ∀ x ∈ sel, x ∈ ghostcat_modifier_mapping :=
      fun x hx => hsel x (List.mem_cons_of_mem _ hx)
    simp only [List.map_cons, List.cons_append]
    rw [keycodeLoop_press_modifier m hm]
    exact ih hrest (mods ||| m.modifier_mask)

/-- A non-modifier key press with the sentinel `KEY_RESERVED` as current
key records the key. -/
theorem keycodeLoop_press_payload (k : Nat)
    (hk : ghostcat_key_is_modifier k = false) (l : List MacroEvent) (mods : Nat) :
    keycodeLoop (⟨MacroEventType.keyPressed, k⟩ :: l) KEY_RESERVED mods =
      keycodeLoop l k mods := by
  have h := hk
  simp only [ghostcat_key_is_modifier, Bool.or_eq_false_iff] at h
  obtain ⟨⟨⟨⟨⟨⟨⟨h1, h2⟩, h3⟩, h4⟩, h5⟩, h6⟩, h7⟩, h8⟩ := h
  simp [keycodeLoop, h1, h2, h3, h4, h5, h6, h7, h8]

/-- The matching release of the recorded non-modifier key returns the key
and the accumulated modifiers. -/
theorem keycodeLoop_release_payload (k : Nat)
    (hk : ghostcat_key_is_modifier k = false) (l : List MacroEvent) (mods : Nat) :
    keycodeLoop (⟨MacroEventType.keyReleased, k⟩ :: l) k mods = .ok k mods := by
  have h := hk
  simp only [ghostcat_key_is_modifier, Bool.or_eq_false_iff] at h
  obtain ⟨⟨⟨⟨⟨⟨⟨h1, h2⟩, h3⟩, h4⟩, h5⟩, h6⟩, h7⟩, h8⟩ := h
  simp [keycodeLoop, h1, h2, h3, h4, h5, h6, h7, h8]

set_option maxRecDepth 8192 in
/-- On masks over the eight canonical bits, folding the masks of the
selected table entries recovers the mask. -/
theorem foldl_filter_masks : ∀ mods : Nat, mods < 256 →
    (ghostcat_modifier_mapping.filter
        (fun m => (mods &&& m.modifier_mask) != 0)).foldl
      (fun acc m => acc ||| m.modifier_mask) 0 = mods := by
  decide

/-- A key-pressed event of a modifier counts into the first component of
`singleModCounts`. -/
theorem singleModCounts_press_modifier (k : Nat)
    (hk : ghostcat_key_is_modifier k = true) (l : List MacroEvent) :
    singleModCounts (⟨MacroEventType.keyPressed, k⟩ :: l) =
      ((singleModCounts l).1 + 1, (singleModCounts l).2) := by
  simp [singleModCounts, hk]

/-- A key-pressed event of a non-modifier counts into the second
component. -/
theorem singleModCounts_press_nonmod (k : Nat)
    (hk : ghostcat_key_is_modifier k = false) (l : List MacroEvent) :
    singleModCounts (⟨MacroEventType.keyPressed, k⟩ :: l) =
      ((singleModCounts l).1, (singleModCounts l).2 + 1) := by
  simp [singleModCounts, hk]

/-- Key-released events count into neither component. -/
theorem singleModCounts_release (k : Nat) (l : List MacroEvent) :
    singleModCounts (⟨MacroEventType.keyReleased, k⟩ :: l) = singleModCounts l := by
  simp [singleModCounts]

/-- The run of modifier presses adds its length to the first component. -/
theorem singleModCounts_presses (sel : List ModifierMapping)
    (hsel : ∀ m ∈ sel, m ∈ ghostcat_modifier_mapping) (l : List MacroEvent) :
    singleModCounts (sel.map (fun m => (⟨MacroEventType.keyPressed, m.key⟩ : MacroEvent)) ++ l) =
      ((singleModCounts l).1 + sel.length, (singleModCounts l).2) := by
  induction sel with
  | nil => simp
  | cons m sel ih =>
    have hm := mapping_key_is_modifier m (hsel m (List.mem_cons_self _ _))
    have hrest : ∀ x ∈ sel, x ∈ ghostcat_modifier_mapping :=
      fun x hx => hsel x (List.mem_cons_of_mem _ hx)
    simp only [List.map_cons, List.cons_append]
    rw [singleModCounts_press_modifier _ hm, ih hrest]
    simp [Nat.add_assoc, Nat.add_comm]

/-- The run of modifier releases contributes nothing. -/
theorem singleModCounts_releases (sel : List ModifierMapping) (l : List MacroEvent) :
    singleModCounts (sel.map (fun m => (⟨MacroEventType.keyReleased, m.key⟩ : MacroEvent)) ++ l) =
      singleModCounts l := by
  induction sel with
  | nil => simp
  | cons m sel ih =>
    simp only [List.map_cons, List.cons_append]
    rw [singleModCounts_release, ih]

/-- Modifier presses are skipped by the payload-key count. -/
theorem num_keys_press_modifier (k : Nat)
    (hk : ghostcat_key_is_modifier k = true) (l : List MacroEvent) :
    ghostcat_action_macro_num_keys (⟨MacroEventType.keyPressed, k⟩ :: l) =
      ghostcat_action_macro_num_keys l := by
  simp [ghostcat_action_macro_num_keys, hk]

/-- A non-modifier key press adds one to the payload-key count. -/
theorem num_keys_press_nonmod (k : Nat)
    (hk : ghostcat_key_is_modifier k = false) (l : List MacroEvent) :
    ghostcat_action_macro_num_keys (⟨MacroEventType.keyPressed, k⟩ :: l) =
      ghostcat_action_macro_num_keys l + 1 := by
  simp [ghostcat_action_macro_num_keys, hk]

/-- Key-released events never count. -/
theorem num_keys_release (k : Nat) (l : List MacroEvent) :
    ghostcat_action_macro_num_keys (⟨MacroEventType.keyReleased, k⟩ :: l) =
      ghostcat_action_macro_num_keys l := by
  by_cases hk : ghostcat_key_is_modifier k <;>
    simp [ghostcat_action_macro_num_keys, hk]

/-- The run of modifier presses is skipped by the payload-key count. -/
theorem num_keys_presses (sel : List ModifierMapping)
    (hsel : ∀ m ∈ sel, m ∈ ghostcat_modifier_mapping) (l : List MacroEvent) :
    ghostcat_action_macro_num_keys
        (sel.map (fun m => (⟨MacroEventType.keyPressed, m.key⟩ : MacroEvent)) ++ l) =
      ghostcat_action_macro_num_keys l := by
  induction sel with
  | nil => simp
  | cons m sel ih =>
    have hm := mapping_key_is_modifier m (hsel m (List.mem_cons_self _ _))
    have hrest : ∀ x ∈ sel, x ∈ ghostcat_modifier_mapping :=
      fun x hx => hsel x (List.mem_cons_of_mem _ hx)
    simp only [List.map_cons, List.cons_append]
    rw [num_keys_press_modifier _ hm, ih hrest]

/-- The run of modifier releases is skipped by the payload-key count. -/
theorem num_keys_releases (sel : List ModifierMapping) (l : List MacroEvent) :
    ghostcat_action_macro_num_keys
        (sel.map (fun m => (⟨MacroEventType.keyReleased, m.key⟩ : MacroEvent)) ++ l) =
      ghostcat_action_macro_num_keys l := by
  induction sel with
  | nil => simp
  | cons m sel ih =>
    simp only [List.map_cons, List.cons_append]
    rw [num_keys_release, ih]

/-- The head of the encoded array is a key-pressed event. -/
theorem headD_presses_type (sel : List ModifierMapping) (key : Nat)
    (l : List MacroEvent) :
    (((sel.map (fun m => (⟨MacroEventType.keyPressed, m.key⟩ : MacroEvent)) ++
        ⟨MacroEventType.keyPressed, key⟩ :: l).headD noneEvent)).type =
      MacroEventType.keyPressed := by
  cases sel <;> simp

/-- A `NONE` slot stops the scan with zero counts. -/
theorem singleModCounts_none (l : List MacroEvent) :
    singleModCounts (noneEvent :: l) = (0, 0) := by
  simp [singleModCounts, noneEvent]

/-- A `NONE` slot stops the payload-key count. -/
theorem num_keys_none (l : List MacroEvent) :
    ghostcat_action_macro_num_keys (noneEvent :: l) = 0 := by
  simp [ghostcat_action_macro_num_keys, noneEvent]

/-- Decoding the canonical shape produced by the encoder (modifier
presses, payload press and release, modifier releases, `NONE` slot)
yields the payload key and the fold of the selected masks. -/
theorem decode_encode_core (sel : List ModifierMapping)
    (hsel : ∀ m ∈ sel, m ∈ ghostcat_modifier_mapping)
    (key : Nat) (hkey : ghostcat_key_is_modifier key = false)
    (tail : List MacroEvent) :
    ghostcat_action_keycode_decode ⟨ButtonActionType.macroAction, some
      (sel.map (fun m => (⟨MacroEventType.keyPressed, m.key⟩ : MacroEvent)) ++
        ⟨MacroEventType.keyPressed, key⟩ :: ⟨MacroEventType.keyReleased, key⟩ ::
        (sel.map (fun m => (⟨MacroEventType.keyReleased, m.key⟩ : MacroEvent)) ++
          noneEvent :: tail))⟩ =
      DecodeResult.ok key (sel.foldl (fun acc m => acc ||| m.modifier_mask) 0) := by
  have hcounts : singleModCounts
      (sel.map (fun m => (⟨MacroEventType.keyPressed, m.key⟩ : MacroEvent)) ++
        ⟨MacroEventType.keyPressed, key⟩ :: ⟨MacroEventType.keyReleased, key⟩ ::
        (sel.map (fun m => (⟨MacroEventType.keyReleased, m.key⟩ : MacroEvent)) ++
          noneEvent :: tail)) = (sel.length, 1) := by
    rw [singleModCounts_presses sel hsel, singleModCounts_press_nonmod key hkey,
        singleModCounts_release, singleModCounts_releases, singleModCounts_none]
    simp
  have hnum : ghostcat_action_macro_num_keys
      (sel.map (fun m => (⟨MacroEventType.keyPressed, m.key⟩ : MacroEvent)) ++
        ⟨MacroEventType.keyPressed, key⟩ :: ⟨MacroEventType.keyReleased, key⟩ ::
        (sel.map (fun m => (⟨MacroEventType.keyReleased, m.key⟩ : MacroEvent)) ++
          noneEvent :: tail)) = 1 := by
    rw [num_keys_presses sel hsel, num_keys_press_nonmod key hkey,
        num_keys_release, num_keys_releases, num_keys_none]
  have hloop : keycodeLoop
      (sel.map (fun m => (⟨MacroEventType.keyPressed, m.key⟩ : MacroEvent)) ++
        ⟨MacroEventType.keyPressed, key⟩ :: ⟨MacroEventType.keyReleased, key⟩ ::
        (sel.map (fun m => (⟨MacroEventType.keyReleased, m.key⟩ : MacroEvent)) ++
          noneEvent :: tail)) KEY_RESERVED 0 =
      DecodeResult.ok key (sel.foldl (fun acc m => acc ||| m.modifier_mask) 0) := by
    rw [keycodeLoop_presses sel hsel _ KEY_RESERVED 0,
        keycodeLoop_press_payload key hkey, keycodeLoop_release_payload key hkey]
  simp only [ghostcat_action_keycode_decode]
  rw [headD_presses_type]
  simp [ghostcat_action_is_single_modifier_key, hcounts, hnum, hloop]

/-- C1: for every key that is not one of the eight modifier keys and
every modifier mask over the eight canonical modifiers, decoding the
macro built by `ghostcat_button_macro_new_from_keycode` succeeds
(returns 1) and yields exactly the original key and modifier mask. -/
theorem keycode_roundtrip (key modifiers : Nat)
    (hkey : ghostcat_key_is_modifier key = false) (hmod : modifiers < 256) :
    ghostcat_action_keycode_decode
        ⟨ButtonActionType.macroAction,
         some (ghostcat_button_macro_new_from_keycode key modifiers)⟩ =
      DecodeResult.ok key modifiers := by
  have hsel : ∀ m ∈ ghostcat_modifier_mapping.filter
      (fun m => (modifiers &&& m.modifier_mask) != 0), m ∈ ghostcat_modifier_mapping :=
    fun m hm => List.mem_of_mem_filter hm
  have hlen8 : (ghostcat_modifier_mapping.filter
      (fun m => (modifiers &&& m.modifier_mask) != 0)).length ≤ 8 := by
    have h := List.length_filter_le (fun m => (modifiers &&& m.modifier_mask) != 0)
      ghostcat_modifier_mapping
    simpa [ghostcat_modifier_mapping] using h
  have hprelen : ((ghostcat_modifier_mapping.filter
        (fun (m : ModifierMapping) => (modifiers &&& m.modifier_mask) != 0)).map
        (fun (m : ModifierMapping) => (⟨MacroEventType.keyPressed, m.key⟩ : MacroEvent))
     ++ ([⟨MacroEventType.keyPressed, key⟩, ⟨MacroEventType.keyReleased, key⟩] : List MacroEvent)
     ++ (ghostcat_modifier_mapping.filter
        (fun (m : ModifierMapping) => (modifiers &&& m.modifier_mask) != 0)).map
        (fun (m : ModifierMapping) => (⟨MacroEventType.keyReleased, m.key⟩ : MacroEvent))).length < 256 := by
    simp only [List.length_append, List.length_map, List.length_cons, List.length_nil]
    omega
  have harr := mkMacroEvents_eq _ hprelen
  simp only [ghostcat_button_macro_new_from_keycode]
  rw [harr]
  simp only [List.append_assoc, List.cons_append, List.nil_append]
  rw [decode_encode_core _ hsel key hkey]
  rw [foldl_filter_masks modifiers hmod]

/-- Witness for `keycode_roundtrip`: KEY_A (30) with
left-ctrl + left-shift (mask 3) round-trips. -/
theorem keycode_roundtrip_witness :
    ghostcat_action_keycode_decode
        ⟨ButtonActionType.macroAction,
         some (ghostcat_button_macro_new_from_keycode 30 3)⟩ =
      DecodeResult.ok 30 3 :=
  keycode_roundtrip 30 3 (by decide) (by decide)

end GhostCAT
